import Mathlib

/-!
Verification of the chat relay/persistence core.

Shallow embedding of the Supabase edge functions of this repository:

* the enhanced `/chat-text` handler (second document in
  `supabase/functions/image-proxy/index.ts`): SSE decode loop, streaming
  relay, session resolution, message persistence, fallback path;
* the `/chat-image` handler (`supabase/functions/chat-image/index.ts`):
  rate limiting, validation, prompt preprocessing, retry logic;
* the `/get-chat-history` handler (appended after the SQL migration in
  `supabase/migrations/20250923052944_create_chat_tables.sql`).

JavaScript string primitives (`split`, `trim`, `slice`, `startsWith`,
`includes`, `substring`, `toLowerCase`) are modelled over `String.data`
(lists of characters) so that every definition kernel-evaluates on
concrete inputs.  `JSON.parse` / `JSON.stringify` are modelled by an
executable JSON parser and printer below.
-/

/-! ## JavaScript string primitives -/

/-- JS whitespace as used by `trim` (the common subset: space, tab, CR, LF). -/
def isJsWs (c : Char) : Bool :=
  c = ' ' || c = '\t' || c = '\n' || c = '\r'

/-- Model of JS `String.prototype.trim`. -/
def jsTrim (s : String) : String :=
  ⟨((s.data.dropWhile isJsWs).reverse.dropWhile isJsWs).reverse⟩

/-- Model of JS `String.prototype.slice(n)` (codepoint granularity). -/
def jsDrop (s : String) (n : Nat) : String :=
  ⟨s.data.drop n⟩

/-- Model of JS `String.prototype.substring(0, n)` (codepoint granularity). -/
def jsTake (s : String) (n : Nat) : String :=
  ⟨s.data.take n⟩

/-- Model of JS `String.prototype.startsWith`. -/
def jsStartsWith (s p : String) : Bool :=
  p.data.isPrefixOf s.data

/-- Substring search on character lists. -/
def containsList (pat : List Char) : List Char → Bool
  | [] => pat.isPrefixOf []
  | c :: tl => pat.isPrefixOf (c :: tl) || containsList pat tl

/-- Model of JS `String.prototype.includes`. -/
def jsIncludes (s pat : String) : Bool :=
  containsList pat.data s.data

/-- Split a character list on a separator character; always returns at
least one (possibly empty) group, like JS `split`. -/
def splitOnChar (c : Char) : List Char → List (List Char)
  | [] => [[]]
  | x :: xs =>
    match splitOnChar c xs with
    | [] => [[]]
    | g :: gs => if x = c then [] :: g :: gs else (x :: g) :: gs

/-- Model of JS `String.prototype.split(sep)` for a one-character separator. -/
def jsSplit (s : String) (c : Char) : List String :=
  (splitOnChar c s.data).map (fun l => ⟨l⟩)

/-- Model of JS `String.prototype.toLowerCase` (ASCII, which is all the
source exercises). -/
def jsToLower (s : String) : String :=
  ⟨s.data.map Char.toLower⟩

/-! ## JSON values, parser and printer

Model of the platform's `JSON.parse` / `JSON.stringify` builtins, which
the source uses to decode upstream SSE payloads and to encode downstream
frames.  Numbers are stored as a decimal mantissa/exponent pair. -/

inductive Json where
  | null
  | bool (b : Bool)
  | num (m : Int) (e : Int)
  | str (s : String)
  | arr (xs : List Json)
  | obj (kvs : List (String × Json))

/-- JS truthiness of a JSON value (`if (x)`): `null`, `false`, `0` and
`""` are falsy; objects and arrays are always truthy. -/
def jsTruthy : Json → Bool
  | .null => false
  | .bool b => b
  | .num m _ => m ≠ 0
  | .str s => s ≠ ""
  | .arr _ => true
  | .obj _ => true

/-- JS property access `x?.k`: object member lookup (last duplicate key
wins, as after `JSON.parse`); any non-object yields `undefined`.  A
thrown `TypeError` (access on `null`) is absorbed into `none` because
every such access in the source sits inside a `try`/`catch` that skips
the offending payload. -/
def jprop (j : Json) (k : String) : Option Json :=
  match j with
  | .obj kvs =>
    match kvs.reverse.find? (fun kv => kv.1 = k) with
    | some kv => some kv.2
    | none => none
  | _ => none

/-- JS index access `x?.[i]` on a JSON value. -/
def jindex (j : Json) (i : Nat) : Option Json :=
  match j with
  | .arr xs => xs[i]?
  | _ => none

/-- JSON insignificant whitespace. -/
def isJsonWsP (c : Char) : Bool :=
  c = ' ' || c = '\t' || c = '\n' || c = '\r'

def parseHexDigit (c : Char) : Option Nat :=
  if '0' ≤ c ∧ c ≤ '9' then some (c.toNat - '0'.toNat)
  else if 'a' ≤ c ∧ c ≤ 'f' then some (c.toNat - 'a'.toNat + 10)
  else if 'A' ≤ c ∧ c ≤ 'F' then some (c.toNat - 'A'.toNat + 10)
  else none

/-- Body of a JSON string literal (after the opening quote). -/
def parseStrBody (fuel : Nat) (acc : List Char) (s : List Char) :
    Option (String × List Char) :=
  match fuel with
  | 0 => none
  | fuel + 1 =>
    match s with
    | [] => none
    | c :: cs =>
      if c = '"' then some (⟨acc.reverse⟩, cs)
      else if c = '\\' then
        match cs with
        | [] => none
        | e :: cs' =>
          if e = '"' then parseStrBody fuel ('"' :: acc) cs'
          else if e = '\\' then parseStrBody fuel ('\\' :: acc) cs'
          else if e = '/' then parseStrBody fuel ('/' :: acc) cs'
          else if e = 'n' then parseStrBody fuel ('\n' :: acc) cs'
          else if e = 't' then parseStrBody fuel ('\t' :: acc) cs'
          else if e = 'r' then parseStrBody fuel ('\r' :: acc) cs'
          else if e = 'b' then parseStrBody fuel ('\x08' :: acc) cs'
          else if e = 'f' then parseStrBody fuel ('\x0c' :: acc) cs'
          else if e = 'u' then
            match cs' with
            | h1 :: h2 :: h3 :: h4 :: cs'' =>
              match parseHexDigit h1, parseHexDigit h2,
                    parseHexDigit h3, parseHexDigit h4 with
              | some a, some b, some c', some d =>
                parseStrBody fuel
                  (Char.ofNat (((a * 16 + b) * 16 + c') * 16 + d) :: acc) cs''
              | _, _, _, _ => none
            | _ => none
          else none
      else parseStrBody fuel (c :: acc) cs

/-- Consume a run of decimal digits, returning their value and count. -/
def parseDigits (fuel : Nat) (acc : Nat) (cnt : Nat) (s : List Char) :
    Nat × Nat × List Char :=
  match fuel with
  | 0 => (acc, cnt, s)
  | fuel + 1 =>
    match s with
    | c :: cs =>
      if '0' ≤ c ∧ c ≤ '9' then
        parseDigits fuel (acc * 10 + (c.toNat - '0'.toNat)) (cnt + 1) cs
      else (acc, cnt, s)
    | [] => (acc, cnt, s)

/-- JSON number literal: sign, integer part, optional fraction and
exponent; the value is `m * 10 ^ e`. -/
def parseNum (s : List Char) : Option (Json × List Char) :=
  let (neg, s1) := match s with
    | '-' :: cs => (true, cs)
    | _ => (false, s)
  let (ip, ipCnt, s2) := parseDigits s1.length 0 0 s1
  if ipCnt = 0 then none
  else
    let (fp, fpCnt, s3) := match s2 with
      | '.' :: cs =>
        let (v, n, r) := parseDigits cs.length 0 0 cs
        (v, n, r)
      | _ => (0, 0, s2)
    if s2 ≠ s3 ∧ fpCnt = 0 then none
    else
      let mant : Int := Int.ofNat (ip * 10 ^ fpCnt + fp)
      let mant := if neg then -mant else mant
      match s3 with
      | c :: cs =>
        if c = 'e' ∨ c = 'E' then
          let (eneg, s4) := match cs with
            | '-' :: r => (true, r)
            | '+' :: r => (false, r)
            | _ => (false, cs)
          let (ev, evCnt, s5) := parseDigits s4.length 0 0 s4
          if evCnt = 0 then none
          else
            let ex : Int := if eneg then -(Int.ofNat ev) else Int.ofNat ev
            some (.num mant (ex - Int.ofNat fpCnt), s5)
        else some (.num mant (-(Int.ofNat fpCnt)), s3)
      | [] => some (.num mant (-(Int.ofNat fpCnt)), [])

mutual

/-- Recursive-descent JSON value parser (fuel-bounded; the fuel supplied
by `parseJson` exceeds the recursion depth of any input). -/
def parseVal (fuel : Nat) (s : List Char) : Option (Json × List Char) :=
  match fuel with
  | 0 => none
  | fuel + 1 =>
    match s.dropWhile isJsonWsP with
    | [] => none
    | c :: cs =>
      if c = '"' then
        match parseStrBody (cs.length + 1) [] cs with
        | some (str, rest) => some (.str str, rest)
        | none => none
      else if c = '[' then
        match (cs.dropWhile isJsonWsP) with
        | ']' :: rest => some (.arr [], rest)
        | _ => parseArrElems fuel [] cs
      else if c = '{' then
        match (cs.dropWhile isJsonWsP) with
        | '}' :: rest => some (.obj [], rest)
        | _ => parseObjMembers fuel [] cs
      else if c = 't' then
        match cs with
        | 'r' :: 'u' :: 'e' :: rest => some (.bool true, rest)
        | _ => none
      else if c = 'f' then
        match cs with
        | 'a' :: 'l' :: 's' :: 'e' :: rest => some (.bool false, rest)
        | _ => none
      else if c = 'n' then
        match cs with
        | 'u' :: 'l' :: 'l' :: rest => some (.null, rest)
        | _ => none
      else if c = '-' ∨ ('0' ≤ c ∧ c ≤ '9') then parseNum (c :: cs)
      else none

/-- Array elements after `[` (the empty array was handled by the caller). -/
def parseArrElems (fuel : Nat) (acc : List Json) (s : List Char) :
    Option (Json × List Char) :=
  match fuel with
  | 0 => none
  | fuel + 1 =>
    match parseVal fuel s with
    | none => none
    | some (v, rest) =>
      match rest.dropWhile isJsonWsP with
      | ',' :: rest' => parseArrElems fuel (v :: acc) rest'
      | ']' :: rest' => some (.arr (v :: acc).reverse, rest')
      | _ => none

/-- Object members after `{` (the empty object was handled by the caller). -/
def parseObjMembers (fuel : Nat) (acc : List (String × Json)) (s : List Char) :
    Option (Json × List Char) :=
  match fuel with
  | 0 => none
  | fuel + 1 =>
    match s.dropWhile isJsonWsP with
    | '"' :: cs =>
      match parseStrBody (cs.length + 1) [] cs with
      | none => none
      | some (key, rest) =>
        match rest.dropWhile isJsonWsP with
        | ':' :: rest' =>
          match parseVal fuel rest' with
          | none => none
          | some (v, rest'') =>
            match rest''.dropWhile isJsonWsP with
            | ',' :: rest''' => parseObjMembers fuel ((key, v) :: acc) rest'''
            | '}' :: rest''' => some (.obj ((key, v) :: acc).reverse, rest''')
            | _ => none
        | _ => none
    | _ => none

end

/-- Model of `JSON.parse`: parse one value and require only whitespace to
remain; `none` models a thrown `SyntaxError`. -/
def parseJson (s : String) : Option Json :=
  match parseVal (2 * s.data.length + 2) s.data with
  | some (v, rest) =>
    if (rest.dropWhile isJsonWsP).isEmpty then some v else none
  | none => none

/-- Escape one character as inside a `JSON.stringify` string literal. -/
def escapeJsonChar (c : Char) : List Char :=
  if c = '"' then ['\\', '"']
  else if c = '\\' then ['\\', '\\']
  else if c = '\n' then ['\\', 'n']
  else if c = '\t' then ['\\', 't']
  else if c = '\r' then ['\\', 'r']
  else if c = '\x08' then ['\\', 'b']
  else if c = '\x0c' then ['\\', 'f']
  else if c.toNat < 0x20 then
    let hex := fun (n : Nat) =>
      if n < 10 then Char.ofNat ('0'.toNat + n) else Char.ofNat ('a'.toNat + n - 10)
    ['\\', 'u', '0', '0', hex (c.toNat / 16), hex (c.toNat % 16)]
  else [c]

/-- `JSON.stringify` of a string value. -/
def encodeJsonStr (s : String) : String :=
  ⟨'"' :: s.data.flatMap escapeJsonChar ++ ['"']⟩

mutual

/-- Model of `JSON.stringify` (number formatting approximated by
mantissa/exponent display; the source only ever stringifies objects of
strings). -/
def jsonStringify : Json → String
  | .null => "null"
  | .bool true => "true"
  | .bool false => "false"
  | .num m e => if e = 0 then toString m else toString m ++ "e" ++ toString e
  | .str s => encodeJsonStr s
  | .arr xs => "[" ++ String.intercalate "," (jsonStringifyList xs) ++ "]"
  | .obj kvs => "\x7b" ++ String.intercalate "," (jsonStringifyKVs kvs) ++ "\x7d"

def jsonStringifyList : List Json → List String
  | [] => []
  | x :: xs => jsonStringify x :: jsonStringifyList xs

def jsonStringifyKVs : List (String × Json) → List String
  | [] => []
  | (k, v) :: kvs => (encodeJsonStr k ++ ":" ++ jsonStringify v) :: jsonStringifyKVs kvs

end

mutual

/-- JS string coercion, as in `accumulatedResponse += content` (only the
string case is ever reached by upstream chat deltas). -/
def jsToString : Json → String
  | .str s => s
  | .null => "null"
  | .bool true => "true"
  | .bool false => "false"
  | .num m e => if e = 0 then toString m else toString m ++ "e" ++ toString e
  | .arr xs => String.intercalate "," (jsToStringList xs)
  | .obj _ => "[object Object]"

def jsToStringList : List Json → List String
  | [] => []
  | x :: xs => jsToString x :: jsToStringList xs

end

/-! ## Stream Relay Engine (decode loop of the enhanced chat-text handler)

`image-proxy/index.ts` (second document), lines 374-441: the
`ReadableStream` that reads upstream chunks, splits each on `'\n'`,
acts on `data: `-prefixed lines, persists the accumulated response at
`[DONE]`, and skips malformed payloads. -/

/-- `JSON.parse(data)` followed by `parsed.choices?.[0]?.delta?.content`.
A parse failure (or a `TypeError` from property access on `null`) is
caught by the surrounding `catch`, which skips the line; both are
therefore `none` here. -/
def extractDeltaContent (data : String) : Option Json :=
  match parseJson data with
  | none => none
  | some parsed =>
    match jprop parsed "choices" with
    | none => none
    | some choices =>
      match jindex choices 0 with
      | none => none
      | some c0 =>
        match jprop c0 "delta" with
        | none => none
        | some delta => jprop delta "content"

/-- What the decode loop does with one line of an upstream chunk. -/
inductive LineEvent where
  | skip
  | done
  | content (c : Json)

/-- Per-line classification, mirroring the body of the
`for (const line of lines)` loop: only `data: `-prefixed lines are acted
on; the remainder is sliced off and trimmed; `[DONE]` is terminal;
otherwise a non-empty payload is parsed and its delta content forwarded
when truthy; anything else is skipped. -/
def lineEvent (line : String) : LineEvent :=
  if jsStartsWith line "data: " then
    let data := jsTrim (jsDrop line 6)
    if data = "[DONE]" then .done
    else if data ≠ "" then
      match extractDeltaContent data with
      | some c => if jsTruthy c then .content c else .skip
      | none => .skip
    else .skip
  else .skip

/-- The downstream SSE frame for one forwarded delta:
`data: ${JSON.stringify({ content })}\n\n`. -/
def contentFrame (c : Json) : String :=
  "data: " ++ jsonStringify (.obj [("content", c)]) ++ "\n\n"

/-- The terminal downstream frame `data: [DONE]\n\n`. -/
def doneFrame : String := "data: [DONE]\n\n"

/-- Result of one relay operation: the downstream frames enqueued in
order, the assistant content persisted at the `[DONE]` branch (if any),
and whether the terminal marker was reached. -/
structure RelayResult where
  frames : List String
  persisted : Option String
  reachedDone : Bool
deriving DecidableEq

/-- The decode loop over the (already line-split) upstream input,
threading `accumulatedResponse`.  At `[DONE]` the accumulated response is
persisted when truthy (non-empty), the terminal frame is enqueued and the
stream closes, ignoring any further input; when the input ends without
`[DONE]` nothing is persisted and no terminal frame is sent. -/
def processLines : List String → String → RelayResult
  | [], _ => ⟨[], none, false⟩
  | l :: ls, acc =>
    match lineEvent l with
    | .done => ⟨[doneFrame], if acc ≠ "" then some acc else none, true⟩
    | .content c =>
      let r := processLines ls (acc ++ jsToString c)
      ⟨contentFrame c :: r.frames, r.persisted, r.reachedDone⟩
    | .skip => processLines ls acc

/-- One relay operation over a sequence of decoded upstream chunks: each
chunk is split on `'\n'` (exactly as `chunk.split('\n')` inside the read
loop) and the lines are processed in arrival order with an initially
empty accumulator. -/
def relayChunks (chunks : List String) : RelayResult :=
  processLines (chunks.flatMap (fun c => jsSplit c '\n')) ""

/-! ## Theorems: relay engine (C1, C4, C5) -/

/-- Left-to-right concatenation of a list of strings. -/
def strJoin (ds : List String) : String :=
  ds.foldr (fun a b => a ++ b) ""

/-- Helper: the only assignment of `persisted` happens in the `[DONE]`
branch, guarded by truthiness of the accumulator. -/
theorem processLines_persisted_done (ls : List String) :
    ∀ (acc s : String), (processLines ls acc).persisted = some s →
      (processLines ls acc).reachedDone = true ∧ s ≠ "" := by
  induction ls with
  | nil =>
    intro acc s h
    simp [processLines] at h
  | cons l ls ih =>
    intro acc s h
    cases hl : lineEvent l with
    | done =>
      simp only [processLines, hl] at h ⊢
      refine ⟨trivial, ?_⟩
      by_cases hacc : acc ≠ ""
      · simp [hacc] at h
        simpa [← h] using hacc
      · simp [hacc] at h
    | content c =>
      simp only [processLines, hl] at h ⊢
      exact ih _ s h
    | skip =>
      simp only [processLines, hl] at h ⊢
      exact ih _ s h

/-- C1: an assistant text message is persisted by the relay only when the
decoded stream reaches the terminal `[DONE]` marker with a non-empty
accumulated response; a stream that ends (or is cut) before `[DONE]`
persists nothing. -/
theorem relay_no_partial_persist (chunks : List String) :
    (∀ s, (relayChunks chunks).persisted = some s →
      (relayChunks chunks).reachedDone = true ∧ s ≠ "") ∧
    ((relayChunks chunks).reachedDone = false →
      (relayChunks chunks).persisted = none) := by
  constructor
  · intro s h
    exact processLines_persisted_done _ _ s h
  · intro hnd
    cases hp : (relayChunks chunks).persisted with
    | none => rfl
    | some s =>
      have := processLines_persisted_done
        (chunks.flatMap (fun c => jsSplit c '\n')) "" s hp
      rw [show relayChunks chunks
          = processLines (chunks.flatMap (fun c => jsSplit c '\n')) "" from rfl]
        at hnd
      rw [this.1] at hnd
      cases hnd

/-- C1 witness: a stream that delivers content but never `[DONE]`
persists nothing, and a persisting run did reach `[DONE]` with non-empty
content. -/
theorem relay_no_partial_persist_witness :
    ((relayChunks ["data: \x7b\"choices\":[\x7b\"delta\":\x7b\"content\":\"hi\"\x7d\x7d]\x7d\n\n"]).reachedDone = false →
      (relayChunks ["data: \x7b\"choices\":[\x7b\"delta\":\x7b\"content\":\"hi\"\x7d\x7d]\x7d\n\n"]).persisted = none) ∧
    ((relayChunks ["data: \x7b\"choices\":[\x7b\"delta\":\x7b\"content\":\"hi\"\x7d\x7d]\x7d\n\ndata: [DONE]\n\n"]).reachedDone
        = true ∧ "hi" ≠ "") :=
  ⟨(relay_no_partial_persist _).2,
   (relay_no_partial_persist
      ["data: \x7b\"choices\":[\x7b\"delta\":\x7b\"content\":\"hi\"\x7d\x7d]\x7d\n\ndata: [DONE]\n\n"]).1 "hi" (by decide)⟩

/-- C4: lines without the `data: ` prefix are ignored; a `data: ` payload
that fails to parse or lacks `choices[0].delta.content` is skipped and
the relay simply continues with the next line; and the decode pass over
`data: not-json\n\ndata: {"choices":[{"delta":{"content":"ok"}}]}\n\ndata: [DONE]\n\n`
forwards exactly one content event `{"content":"ok"}` followed by
`[DONE]`, persisting `"ok"`. -/
theorem decode_skips_malformed :
    (∀ line, jsStartsWith line "data: " = false → lineEvent line = .skip) ∧
    (∀ line, jsStartsWith line "data: " = true →
      jsTrim (jsDrop line 6) ≠ "[DONE]" →
      extractDeltaContent (jsTrim (jsDrop line 6)) = none →
      lineEvent line = .skip) ∧
    (∀ l ls acc, lineEvent l = .skip →
      processLines (l :: ls) acc = processLines ls acc) ∧
    relayChunks ["data: not-json\n\ndata: \x7b\"choices\":[\x7b\"delta\":\x7b\"content\":\"ok\"\x7d\x7d]\x7d\n\ndata: [DONE]\n\n"]
      = ⟨["data: \x7b\"content\":\"ok\"\x7d\n\n", doneFrame], some "ok", true⟩ := by
  refine ⟨?_, ?_, ?_, by decide⟩
  · intro line h
    simp [lineEvent, h]
  · intro line h hdone hext
    by_cases hemp : jsTrim (jsDrop line 6) = ""
    · simp [lineEvent, h, hemp]
    · simp [lineEvent, h, hdone, hemp, hext]
  · intro l ls acc hl
    simp [processLines, hl]

/-- C4 witness: instantiation of the three universally quantified
skip-conjuncts at concrete inputs. -/
theorem decode_skips_malformed_witness :
    lineEvent "event: x" = .skip ∧
    lineEvent "data: not-json" = .skip ∧
    processLines ["data: not-json", "data: [DONE]"] "" = processLines ["data: [DONE]"] "" :=
  ⟨decode_skips_malformed.1 "event: x" (by decide),
   decode_skips_malformed.2.1 "data: not-json" (by decide) (by decide) rfl,
   decode_skips_malformed.2.2.1 "data: not-json" ["data: [DONE]"] ""
     (decode_skips_malformed.2.1 "data: not-json" (by decide) (by decide) rfl)⟩

/-- The upstream SSE line carrying one content delta `d`:
`data: {"choices":[{"delta":{"content":<json-string d>}}]}`. -/
def mkDeltaLine (d : String) : String :=
  "data: " ++ "\x7b\"choices\":[\x7b\"delta\":\x7b\"content\":" ++ encodeJsonStr d ++ "\x7d\x7d]\x7d"

theorem processLines_deltas (ds : List String)
    (h : ∀ d ∈ ds, lineEvent (mkDeltaLine d) = LineEvent.content (.str d)) :
    ∀ acc, processLines (ds.map mkDeltaLine ++ ["data: [DONE]"]) acc =
      ⟨ds.map (fun d => contentFrame (.str d)) ++ [doneFrame],
       if acc ++ strJoin ds ≠ "" then some (acc ++ strJoin ds) else none,
       true⟩ := by
  induction ds with
  | nil =>
    intro acc
    have hdone : lineEvent "data: [DONE]" = .done := rfl
    simp [processLines, hdone, strJoin, String.append_empty]
  | cons d ds ih =>
    intro acc
    have hd : lineEvent (mkDeltaLine d) = LineEvent.content (.str d) :=
      h d (List.mem_cons_self d ds)
    have ih' := ih (fun x hx => h x (List.mem_cons_of_mem d hx)) (acc ++ d)
    simp only [List.map_cons, List.cons_append, processLines, hd, jsToString, List.append_eq]
    rw [ih']
    have hj : strJoin (d :: ds) = d ++ strJoin ds := rfl
    simp [hj, String.append_assoc]

/-- C5: downstream content frames are emitted in exactly upstream
arrival order of the decoded deltas, terminated by `[DONE]`, and the
persisted assistant content is the left-to-right concatenation of all
forwarded deltas. -/
theorem relay_preserves_order (ds : List String)
    (h : ∀ d ∈ ds, lineEvent (mkDeltaLine d) = LineEvent.content (.str d)) :
    processLines (ds.map mkDeltaLine ++ ["data: [DONE]"]) "" =
      ⟨ds.map (fun d => contentFrame (.str d)) ++ [doneFrame],
       if strJoin ds ≠ "" then some (strJoin ds) else none,
       true⟩ := by
  have := processLines_deltas ds h ""
  simpa using this

/-- C5 witness: the spec's concrete vector `["Hel", "lo", " world"]`
followed by `[DONE]` yields the three content frames in order and
persists `"Hello world"`. -/
theorem relay_preserves_order_witness :
    processLines (["Hel", "lo", " world"].map mkDeltaLine ++ ["data: [DONE]"]) "" =
      ⟨[contentFrame (.str "Hel"), contentFrame (.str "lo"),
        contentFrame (.str " world"), doneFrame],
       some "Hello world", true⟩ := by
  have := relay_preserves_order ["Hel", "lo", " world"]
    (by
      intro d hd
      simp only [List.mem_cons, List.not_mem_nil, or_false] at hd
      rcases hd with rfl | rfl | rfl <;> rfl)
  simpa using this

/-! ## Enhanced chat-text handler

Model of the `Deno.serve` handler in the second document of
`supabase/functions/image-proxy/index.ts` (lines 206-511): method check,
body parsing, session resolution, user-message persistence, API-key
gate, upstream call, relay, and the fallback path of the `catch`.
Database and network outcomes the handler reacts to are supplied by a
`ChatTextEnv` oracle; the handler's observable behaviour is its ordered
trace of store/upstream/stream effects plus its response. -/

/-- One observable effect of a handler run, in program order. -/
inductive Eff where
  | sessionSelect (id : String)
  | sessionInsertNew (title : String)
  | sessionInsertWithId (id : String) (title : String)
  | sessionUpdate (id : String)
  | msgInsert (chatId : String) (role : String) (content : String)
      (mtype : String) (imageUrl : Option String)
  | upstreamFetch (model : String) (prompt : String)
  | emit (frame : String)
deriving DecidableEq

/-- Outcome of the `fetch` to the upstream completion endpoint. -/
inductive FetchResult where
  | throws (msg : String)
  | resp (ok : Bool) (status : Nat) (statusText : String) (errText : String)
      (chunks : List String)

/-- Oracle for one request: the parsed body (`none` models a JSON
`SyntaxError`), the values of `crypto.randomUUID()`, the store's answers
and the upstream outcome. -/
structure ChatTextEnv where
  method : String
  body : Option Json
  uuid : String
  uuid2 : String
  storeSessionId : String
  sessionExists : Bool
  sessionInsertFails : Bool
  apiKey : Option String
  fetch : FetchResult

/-- Handler response: a streaming body, or the JSON error of the outer
`catch` (always status 400 in this handler). -/
inductive Resp where
  | stream
  | jsonError (status : Nat) (error : String)
deriving DecidableEq

structure HandlerResult where
  trace : List Eff
  resp : Resp
deriving DecidableEq

/-- Body parsing of the enhanced handler (lines 218-235): JSON parse
errors, falsy bodies and non-string `message` fields throw; otherwise
`chatId = body.chatId || crypto.randomUUID()`. -/
def parseChatTextBody (env : ChatTextEnv) : Except String (String × String) :=
  match env.body with
  | none => .error "Invalid JSON in request body"
  | some b =>
    if jsTruthy b then
      match jprop b "message" with
      | some (.str m) =>
        let cv := (jprop b "chatId").getD Json.null
        .ok (m, if jsTruthy cv then jsToString cv else env.uuid)
      | _ => .error "Message must be a string"
    else .error "Missing request body"

/-- Session resolution (lines 241-286).  With a falsy `chatId` a session
is inserted without an id and the store-generated id adopted (dead in
practice, since `chatId` was defaulted to a fresh UUID); otherwise the
session is looked up, created with that exact id when missing, or its
timestamp touched when present.  Returns the effects and the `chatId`
used from here on. -/
def sessionPhase (env : ChatTextEnv) (message chatId : String) :
    List Eff × String :=
  if chatId = "" then
    ([.sessionInsertNew (jsTake message 50)],
     if env.sessionInsertFails then env.uuid2 else env.storeSessionId)
  else if env.sessionExists then
    ([.sessionSelect chatId, .sessionUpdate chatId], chatId)
  else
    ([.sessionSelect chatId, .sessionInsertWithId chatId (jsTake message 50)],
     chatId)

/-- Word-by-word emission of a locally generated message: the text is
split on `' '` and each word re-emitted as a content frame with a
trailing space, terminated by the `[DONE]` frame (lines 309-323 and
476-490). -/
def wordEmits (s : String) : List Eff :=
  (jsSplit s ' ').map (fun w => Eff.emit (contentFrame (.str (w ++ " ")))) ++
    [Eff.emit doneFrame]

/-- The mock reply used when no `OPENAI_API_KEY` is configured (line 307). -/
def mockResponse (message : String) : String :=
  "No OpenAI API key found. Mock response for: \"" ++ message ++
    "\". Please set OPENAI_API_KEY environment variable."

/-- Error classification of the `catch (openaiError)` block
(lines 459-471). -/
def classifyError (m : String) : String :=
  if jsIncludes m "dns error" || jsIncludes m "failed to lookup address" then
    "Network connectivity issue detected. This might be a temporary DNS problem or network configuration issue. Please try again in a moment."
  else if jsIncludes m "timeout" || jsIncludes m "AbortError" then
    "Request timed out. The OpenAI API is taking longer than expected to respond. Please try again."
  else if jsIncludes m "401" || jsIncludes m "Unauthorized" then
    "API key authentication failed. Please check your OpenAI API key configuration."
  else
    "OpenAI API temporarily unavailable. Please try again later."

/-- The fallback reply streamed when the upstream call fails (line 474). -/
def fallbackResponseFor (errMsg message : String) : String :=
  classifyError errMsg ++
    " For now, here's a helpful response about your question: \"" ++ message ++ "\"."

/-- The `Error` message thrown for a non-2xx upstream response (line 367). -/
def upstreamErrMsg (status : Nat) (statusText errText : String) : String :=
  "OpenAI API Error: " ++ toString status ++ " " ++ statusText ++ " - " ++ errText

/-- The message carried into the `catch` block for a failed upstream call. -/
def fetchErrMsg : FetchResult → String
  | .throws m => m
  | .resp _ status statusText errText _ => upstreamErrMsg status statusText errText

/-- The decode loop again (lines 374-441), this time with its
persistence side effect in program order: content frames are emitted as
decoded; at `[DONE]` the accumulated response is inserted as the
assistant message (when non-empty) and then the terminal frame emitted. -/
def relayEff (chatId : String) : List String → String → List Eff
  | [], _ => []
  | l :: ls, acc =>
    match lineEvent l with
    | .done =>
      (if acc ≠ "" then [Eff.msgInsert chatId "assistant" acc "text" none]
       else []) ++ [Eff.emit doneFrame]
    | .content c => Eff.emit (contentFrame c) :: relayEff chatId ls (acc ++ jsToString c)
    | .skip => relayEff chatId ls acc

/-- The enhanced chat-text handler. -/
def chatTextHandler (env : ChatTextEnv) : HandlerResult :=
  if env.method ≠ "POST" then
    ⟨[], .jsonError 400 ("Method " ++ env.method ++ " not allowed")⟩
  else
    match parseChatTextBody env with
    | .error m => ⟨[], .jsonError 400 m⟩
    | .ok (message, chatId0) =>
      let sp := sessionPhase env message chatId0
      let userEff := Eff.msgInsert sp.2 "user" message "text" none
      match env.apiKey with
      | none => ⟨sp.1 ++ [userEff] ++ wordEmits (mockResponse message), .stream⟩
      | some _ =>
        let fetchEff := Eff.upstreamFetch "gpt-4o-mini" message
        match env.fetch with
        | .throws m =>
          ⟨sp.1 ++ [userEff] ++ [fetchEff] ++
            wordEmits (fallbackResponseFor m message), .stream⟩
        | .resp ok status statusText errText chunks =>
          if ok then
            ⟨sp.1 ++ [userEff] ++ [fetchEff] ++
              relayEff sp.2 (chunks.flatMap (fun c => jsSplit c '\n')) "", .stream⟩
          else
            ⟨sp.1 ++ [userEff] ++ [fetchEff] ++
              wordEmits (fallbackResponseFor
                (upstreamErrMsg status statusText errText) message), .stream⟩

/-- Effect classifiers. -/
def isFetch : Eff → Bool
  | .upstreamFetch _ _ => true
  | _ => false

def isUserInsert : Eff → Bool
  | .msgInsert _ r _ _ _ => r = "user"
  | _ => false

def isAssistantInsert : Eff → Bool
  | .msgInsert _ r _ _ _ => r = "assistant"
  | _ => false

def isMsgInsert : Eff → Bool
  | .msgInsert _ _ _ _ _ => true
  | _ => false

def isSessionInsertNew : Eff → Bool
  | .sessionInsertNew _ => true
  | _ => false

/-- The chat id carried by a message-insert effect. -/
def insertChatId : Eff → Option String
  | .msgInsert c _ _ _ _ => some c
  | _ => none

/-! ## Theorems: chat-text handler (C2, C3, C6) -/

/-- Generic precedence: in `pre ++ u :: post` with no `Q`-element in
`pre` and `u` not a `Q`-element but a `P`-element, every `Q`-element is
preceded by a `P`-element. -/
theorem precedes_of_split {α : Type} (P Q : α → Bool) (pre post : List α) (u : α)
    (hPu : P u = true) (hpre : ∀ e ∈ pre, Q e = false) (hQu : Q u = false) :
    ∀ (j : Nat) (e : α), (pre ++ u :: post)[j]? = some e → Q e = true →
      ∃ (i : Nat) (e' : α), i < j ∧ (pre ++ u :: post)[i]? = some e' ∧ P e' = true := by
  intro j e hj hQ
  rcases Nat.lt_trichotomy j pre.length with hlt | heq | hgt
  · rw [List.getElem?_append] at hj
    rw [if_pos hlt] at hj
    have : e ∈ pre := List.getElem?_mem hj
    rw [hpre e this] at hQ
    cases hQ
  · subst heq
    rw [List.getElem?_append] at hj
    rw [if_neg (Nat.lt_irrefl _)] at hj
    simp at hj
    rw [← hj] at hQ
    rw [hQu] at hQ
    cases hQ
  · refine ⟨pre.length, u, hgt, ?_, hPu⟩
    rw [List.getElem?_append]
    rw [if_neg (Nat.lt_irrefl _)]
    simp

/-- No effect of the session-resolution phase is an upstream fetch. -/
theorem sessionPhase_no_fetch (env : ChatTextEnv) (m c : String) :
    ∀ e ∈ (sessionPhase env m c).1, isFetch e = false := by
  intro e he
  unfold sessionPhase at he
  split at he
  · simp at he
    subst he
    rfl
  · split at he <;>
    · simp at he
      rcases he with he | he <;> (subst he; rfl)

/-- C2: for every request that passes body validation, any upstream
completion fetch in the handler's effect trace is preceded by the insert
of the user message into the messages table. -/
theorem chatText_user_insert_before_fetch (env : ChatTextEnv) (m c0 : String)
    (hpost : env.method = "POST")
    (hbody : parseChatTextBody env = .ok (m, c0)) :
    ∀ (j : Nat) (e : Eff), ((chatTextHandler env).trace)[j]? = some e → isFetch e = true →
      ∃ (i : Nat) (e' : Eff), i < j ∧ ((chatTextHandler env).trace)[i]? = some e' ∧
        isUserInsert e' = true := by
  have hm : ¬ env.method ≠ "POST" := by simp [hpost]
  unfold chatTextHandler
  rw [hbody]
  simp only [if_neg hm]
  have hu : isUserInsert (Eff.msgInsert (sessionPhase env m c0).2 "user" m "text" none)
      = true := by rfl
  have hq : isFetch (Eff.msgInsert (sessionPhase env m c0).2 "user" m "text" none)
      = false := by rfl
  cases hk : env.apiKey with
  | none =>
    simp only [List.append_assoc, List.singleton_append]
    exact precedes_of_split isUserInsert isFetch _ _ _ hu (sessionPhase_no_fetch env m c0) hq
  | some k =>
    cases hf : env.fetch with
    | throws msg =>
      simp only [List.append_assoc, List.singleton_append]
      exact precedes_of_split isUserInsert isFetch _ _ _ hu (sessionPhase_no_fetch env m c0) hq
    | resp ok status statusText errText chunks =>
      cases ok with
      | true =>
        simp only [if_pos rfl, List.append_assoc, List.singleton_append]
        exact precedes_of_split isUserInsert isFetch _ _ _ hu (sessionPhase_no_fetch env m c0) hq
      | false =>
        simp only [Bool.false_eq_true, if_neg, List.append_assoc, List.singleton_append]
        exact precedes_of_split isUserInsert isFetch _ _ _ hu (sessionPhase_no_fetch env m c0) hq

/-- A concrete environment: valid body, missing session, upstream
connection refused. -/
def envPing : ChatTextEnv :=
  { method := "POST"
    body := some (.obj [("message", .str "ping")])
    uuid := "u1"
    uuid2 := "u2"
    storeSessionId := "s1"
    sessionExists := false
    sessionInsertFails := false
    apiKey := some "sk-test"
    fetch := .throws "dns error: failed to lookup address information" }

/-- C2 witness: in the concrete run the fetch sits at index 3 and the
user insert strictly before it. -/
theorem chatText_user_insert_before_fetch_witness :
    ∃ (i : Nat) (e' : Eff), i < 3 ∧ ((chatTextHandler envPing).trace)[i]? = some e' ∧
      isUserInsert e' = true :=
  chatText_user_insert_before_fetch envPing "ping" "u1" rfl rfl 3
    (Eff.upstreamFetch "gpt-4o-mini" "ping") (by set_option maxRecDepth 4000 in decide) rfl

/-- Whether the upstream call fails before relaying can start
(a thrown fetch or a non-2xx initial response). -/
def fetchFails : FetchResult → Bool
  | .throws _ => true
  | .resp ok _ _ _ _ => !ok

/-- A string with a non-empty prefix is non-empty. -/
theorem append_ne_empty_left (s t : String) (h : s ≠ "") : s ++ t ≠ "" := by
  intro hc
  apply h
  have hd := congrArg String.data hc
  rw [String.data_append] at hd
  have hnil : s.data = [] := (List.append_eq_nil.mp hd).1
  cases s with
  | mk d => cases hnil; rfl

/-- Every branch of the error classification yields non-empty text. -/
theorem classifyError_ne_empty (m : String) : classifyError m ≠ "" := by
  unfold classifyError
  split
  · decide
  · split
    · decide
    · split
      · decide
      · decide

theorem fallbackResponseFor_ne_empty (em m : String) :
    fallbackResponseFor em m ≠ "" := by
  unfold fallbackResponseFor
  rw [String.append_assoc, String.append_assoc]
  exact append_ne_empty_left _ _ (classifyError_ne_empty em)

/-- Word-by-word emission performs no store insert at all. -/
theorem wordEmits_no_msgInsert (s : String) :
    ∀ e ∈ wordEmits s, isMsgInsert e = false := by
  intro e he
  unfold wordEmits at he
  rcases List.mem_append.mp he with h | h
  · rcases List.mem_map.mp h with ⟨w, _, rfl⟩
    rfl
  · simp at h
    subst h
    rfl

/-- An assistant insert is in particular a message insert. -/
theorem isMsgInsert_of_assistant (e : Eff) (h : isAssistantInsert e = true) :
    isMsgInsert e = true := by
  cases e <;> first | rfl | (exact absurd h (by simp [isAssistantInsert]))

theorem filter_assistant_wordEmits (s : String) :
    (wordEmits s).filter isAssistantInsert = [] := by
  rw [List.filter_eq_nil_iff]
  intro e he
  intro hc
  have := wordEmits_no_msgInsert s e he
  rw [isMsgInsert_of_assistant e hc] at this
  cases this

/-- No effect of the session-resolution phase is a message insert. -/
theorem sessionPhase_no_msgInsert (env : ChatTextEnv) (m c : String) :
    ∀ e ∈ (sessionPhase env m c).1, isMsgInsert e = false := by
  intro e he
  unfold sessionPhase at he
  split at he
  · simp at he
    subst he
    rfl
  · split at he <;>
    · simp at he
      rcases he with he | he <;> (subst he; rfl)

/-- The fallback trace of the enhanced chat-text handler: everything the
handler does after a failed upstream call. -/
theorem chatText_fallback_shape (env : ChatTextEnv) (m c0 k : String)
    (hpost : env.method = "POST")
    (hbody : parseChatTextBody env = .ok (m, c0))
    (hkey : env.apiKey = some k)
    (hfail : fetchFails env.fetch = true) :
    (chatTextHandler env).trace =
      (sessionPhase env m c0).1 ++
        [Eff.msgInsert (sessionPhase env m c0).2 "user" m "text" none] ++
        [Eff.upstreamFetch "gpt-4o-mini" m] ++
        wordEmits (fallbackResponseFor (fetchErrMsg env.fetch) m) := by
  have hm : ¬ env.method ≠ "POST" := by simp [hpost]
  unfold chatTextHandler
  rw [hbody]
  simp only [if_neg hm]
  cases hf : env.fetch with
  | throws msg =>
    rw [hkey]
    rfl
  | resp ok status statusText errText chunks =>
    rw [hf] at hfail
    unfold fetchFails at hfail
    cases ok with
    | true => cases hfail
    | false =>
      rw [hkey]
      simp [fetchErrMsg]

/-- C3 (amended): on upstream failure the handler streams the locally
generated fallback text word-by-word through the same emit mechanism,
ending with the `[DONE]` frame, and the fallback text is non-empty — but
no assistant message is persisted on this path. -/
theorem chatText_fallback_no_persist (env : ChatTextEnv) (m c0 k : String)
    (hpost : env.method = "POST")
    (hbody : parseChatTextBody env = .ok (m, c0))
    (hkey : env.apiKey = some k)
    (hfail : fetchFails env.fetch = true) :
    (chatTextHandler env).trace =
      (sessionPhase env m c0).1 ++
        [Eff.msgInsert (sessionPhase env m c0).2 "user" m "text" none] ++
        [Eff.upstreamFetch "gpt-4o-mini" m] ++
        wordEmits (fallbackResponseFor (fetchErrMsg env.fetch) m) ∧
    fallbackResponseFor (fetchErrMsg env.fetch) m ≠ "" ∧
    (wordEmits (fallbackResponseFor (fetchErrMsg env.fetch) m)).getLast? =
      some (Eff.emit doneFrame) ∧
    (chatTextHandler env).trace.filter isAssistantInsert = [] := by
  have hshape := chatText_fallback_shape env m c0 k hpost hbody hkey hfail
  refine ⟨hshape, fallbackResponseFor_ne_empty _ _, List.getLast?_concat _, ?_⟩
  rw [hshape]
  rw [List.filter_append, List.filter_append, List.filter_append]
  rw [filter_assistant_wordEmits]
  rw [List.filter_eq_nil_iff.mpr (fun e he hc => by
    have := sessionPhase_no_msgInsert env m c0 e he
    rw [isMsgInsert_of_assistant e hc] at this
    cases this)]
  rfl

/-- C3 counterexample: in the concrete fallback run (upstream DNS
failure for prompt `"ping"`), the stream does end with the `[DONE]`
frame, but the trace contains no assistant-message insert at all — the
fallback text is not persisted. -/
theorem chatText_fallback_not_persisted_cex :
    (chatTextHandler envPing).trace.filter isAssistantInsert = [] ∧
    ((chatTextHandler envPing).trace.contains
      (Eff.emit doneFrame)) = true := by
  constructor
  · set_option maxRecDepth 8000 in decide
  · set_option maxRecDepth 8000 in decide

/-- C3 witness for the amended theorem, at the same concrete run. -/
theorem chatText_fallback_no_persist_witness :
    fallbackResponseFor (fetchErrMsg envPing.fetch) "ping" ≠ "" ∧
    (wordEmits (fallbackResponseFor (fetchErrMsg envPing.fetch) "ping")).getLast? =
      some (Eff.emit doneFrame) :=
  ⟨(chatText_fallback_no_persist envPing "ping" "u1" "sk-test" rfl rfl rfl rfl).2.1,
   (chatText_fallback_no_persist envPing "ping" "u1" "sk-test" rfl rfl rfl rfl).2.2.1⟩

/-! ## C6: session creation when no chat id is supplied -/

/-- Message inserts inside the relay all use the relay's `chatId`. -/
theorem relayEff_msgInsert_chatId (cid : String) :
    ∀ (ls : List String) (acc : String) (e : Eff), e ∈ relayEff cid ls acc →
      isMsgInsert e = true → insertChatId e = some cid := by
  intro ls
  induction ls with
  | nil =>
    intro acc e he
    simp [relayEff] at he
  | cons l ls ih =>
    intro acc e he hmi
    rw [relayEff] at he
    cases hl : lineEvent l with
    | done =>
      rw [hl] at he
      rcases List.mem_append.mp he with h | h
      · split at h
        · simp at h
          subst h
          rfl
        · simp at h
      · simp at h
        subst h
        cases hmi
    | content c =>
      rw [hl] at he
      rcases List.mem_cons.mp he with h | h
      · subst h
        cases hmi
      · exact ih _ e h hmi
    | skip =>
      rw [hl] at he
      exact ih _ e he hmi

/-- All message inserts in a trace fragment use the chat id `cid`. -/
def TraceGood (cid : String) (l : List Eff) : Prop :=
  ∀ e ∈ l, isMsgInsert e = true → insertChatId e = some cid

theorem traceGood_append (cid : String) (a b : List Eff)
    (ha : TraceGood cid a) (hb : TraceGood cid b) : TraceGood cid (a ++ b) := by
  intro e he
  rcases List.mem_append.mp he with h | h
  · exact ha e h
  · exact hb e h

theorem traceGood_of_no_insert (cid : String) (l : List Eff)
    (h : ∀ e ∈ l, isMsgInsert e = false) : TraceGood cid l := by
  intro e he hmi
  rw [h e he] at hmi
  cases hmi

theorem traceGood_insert (cid role m mtype : String) :
    TraceGood cid [Eff.msgInsert cid role m mtype none] := by
  intro e he hmi
  rcases List.mem_singleton.mp he with rfl
  rfl

theorem traceGood_fetch (cid mdl p : String) :
    TraceGood cid [Eff.upstreamFetch mdl p] := by
  intro e he hmi
  rcases List.mem_singleton.mp he with rfl
  cases hmi

/-- C6 (amended): when the request body carries no session identifier,
the handler generates a fresh UUID itself, finds no session under it,
creates the session with that explicit identifier and title equal to the
first 50 characters of the prompt, and every message insert of the
request uses that handler-generated identifier. -/
theorem chatText_no_chatId_uses_handler_uuid (env : ChatTextEnv) (b : Json) (m : String)
    (hpost : env.method = "POST")
    (hb : env.body = some b)
    (hbt : jsTruthy b = true)
    (hm : jprop b "message" = some (.str m))
    (hnoid : jsTruthy ((jprop b "chatId").getD Json.null) = false)
    (huuid : env.uuid ≠ "")
    (hmiss : env.sessionExists = false) :
    (∃ rest, (chatTextHandler env).trace =
      [Eff.sessionSelect env.uuid,
       Eff.sessionInsertWithId env.uuid (jsTake m 50),
       Eff.msgInsert env.uuid "user" m "text" none] ++ rest) ∧
    TraceGood env.uuid (chatTextHandler env).trace := by
  have hbody : parseChatTextBody env = .ok (m, env.uuid) := by
    unfold parseChatTextBody
    rw [hb]
    simp [hbt, hm, hnoid]
  have hsp : sessionPhase env m env.uuid =
      ([Eff.sessionSelect env.uuid,
        Eff.sessionInsertWithId env.uuid (jsTake m 50)], env.uuid) := by
    unfold sessionPhase
    rw [if_neg huuid, hmiss]
    simp
  have hmp : ¬ env.method ≠ "POST" := by simp [hpost]
  have hpregood : TraceGood env.uuid
      [Eff.sessionSelect env.uuid,
       Eff.sessionInsertWithId env.uuid (jsTake m 50)] := by
    intro e he hmi
    rcases List.mem_cons.mp he with rfl | he
    · cases hmi
    · rcases List.mem_singleton.mp he with rfl
      cases hmi
  unfold chatTextHandler
  rw [hbody]
  simp only [if_neg hmp]
  cases hk : env.apiKey with
  | none =>
    rw [hsp]
    refine ⟨⟨wordEmits (mockResponse m), rfl⟩, ?_⟩
    exact traceGood_append _ _ _
      (traceGood_append _ _ _ hpregood (traceGood_insert _ _ _ _))
      (traceGood_of_no_insert _ _ (wordEmits_no_msgInsert _))
  | some k =>
    cases hf : env.fetch with
    | throws msg =>
      rw [hsp]
      refine ⟨⟨_, rfl⟩, ?_⟩
      exact traceGood_append _ _ _
        (traceGood_append _ _ _
          (traceGood_append _ _ _ hpregood (traceGood_insert _ _ _ _))
          (traceGood_fetch _ _ _))
        (traceGood_of_no_insert _ _ (wordEmits_no_msgInsert _))
    | resp ok status statusText errText chunks =>
      cases ok with
      | true =>
        simp only [if_pos rfl]
        rw [hsp]
        refine ⟨⟨_, rfl⟩, ?_⟩
        exact traceGood_append _ _ _
          (traceGood_append _ _ _
            (traceGood_append _ _ _ hpregood (traceGood_insert _ _ _ _))
            (traceGood_fetch _ _ _))
          (fun e he hmi => relayEff_msgInsert_chatId env.uuid _ _ e he hmi)
      | false =>
        simp only [Bool.false_eq_true, if_neg]
        rw [hsp]
        refine ⟨⟨_, rfl⟩, ?_⟩
        exact traceGood_append _ _ _
          (traceGood_append _ _ _
            (traceGood_append _ _ _ hpregood (traceGood_insert _ _ _ _))
            (traceGood_fetch _ _ _))
          (traceGood_of_no_insert _ _ (wordEmits_no_msgInsert _))

/-- A concrete no-chatId request against a store that would generate the
id `"s1"` for an id-less insert; no API key, so the run is short. -/
def envNoChatId : ChatTextEnv :=
  { method := "POST"
    body := some (.obj [("message", .str "hello")])
    uuid := "u1"
    uuid2 := "u2"
    storeSessionId := "s1"
    sessionExists := false
    sessionInsertFails := false
    apiKey := none
    fetch := .throws "unused" }

/-- C6 counterexample: with no `chatId` in the body the handler never
performs an id-less session insert (so no store-generated identifier
exists to be used); it creates the session under its own freshly
generated UUID `"u1"`, distinct from the id `"s1"` the store would have
generated, and the user-message insert uses `"u1"`. -/
theorem chatText_no_storeGenerated_id_cex :
    (chatTextHandler envNoChatId).trace.filter isSessionInsertNew = [] ∧
    (chatTextHandler envNoChatId).trace.filter isMsgInsert =
      [Eff.msgInsert "u1" "user" "hello" "text" none] ∧
    envNoChatId.uuid = "u1" ∧ envNoChatId.storeSessionId = "s1" ∧
    (chatTextHandler envNoChatId).trace.contains
      (Eff.sessionInsertWithId "u1" "hello") = true := by
  refine ⟨?_, ?_, rfl, rfl, ?_⟩
  · set_option maxRecDepth 4000 in decide
  · set_option maxRecDepth 4000 in decide
  · set_option maxRecDepth 4000 in decide

/-- C6 witness for the amended theorem, at the concrete request. -/
theorem chatText_no_chatId_uses_handler_uuid_witness :
    (∃ rest, (chatTextHandler envNoChatId).trace =
      [Eff.sessionSelect "u1",
       Eff.sessionInsertWithId "u1" (jsTake "hello" 50),
       Eff.msgInsert "u1" "user" "hello" "text" none] ++ rest) ∧
    TraceGood "u1" (chatTextHandler envNoChatId).trace :=
  chatText_no_chatId_uses_handler_uuid envNoChatId
    (.obj [("message", .str "hello")]) "hello" rfl rfl rfl rfl rfl (by decide) rfl

/-! ## Chat-image handler (`supabase/functions/chat-image/index.ts`)

Rate limiting (lines 31-51), validation and preprocessing (lines
84-133 and 200-241), the retry engine `attemptImageGeneration`
(lines 270-394) and the outer catch's status mapping (lines 396-423). -/

/-- One entry of the in-memory `rateLimitMap`. -/
structure RLEntry where
  count : Nat
  resetTime : Nat
deriving DecidableEq

def RATE_LIMIT_WINDOW : Nat := 60 * 1000

def RATE_LIMIT_MAX_REQUESTS : Nat := 10

/-- `checkRateLimit` (lines 36-51): absent entry or expired window
resets the counter to 1; a full counter rejects without mutating;
otherwise the counter is incremented. -/
def checkRateLimit (rateLimitMap : String → Option RLEntry)
    (clientId : String) (now : Nat) :
    Bool × (String → Option RLEntry) :=
  match rateLimitMap clientId with
  | none =>
    (true, fun c => if c = clientId then some ⟨1, now + RATE_LIMIT_WINDOW⟩
                    else rateLimitMap c)
  | some clientData =>
    if now > clientData.resetTime then
      (true, fun c => if c = clientId then some ⟨1, now + RATE_LIMIT_WINDOW⟩
                      else rateLimitMap c)
    else if clientData.count ≥ RATE_LIMIT_MAX_REQUESTS then
      (false, rateLimitMap)
    else
      (true, fun c => if c = clientId then
                        some ⟨clientData.count + 1, clientData.resetTime⟩
                      else rateLimitMap c)

/-- Word characters for the `\b` boundaries of the replacement regexes. -/
def isWordChar (c : Char) : Bool :=
  ('a' ≤ c ∧ c ≤ 'z') ∨ ('A' ≤ c ∧ c ≤ 'Z') ∨ ('0' ≤ c ∧ c ≤ '9') ∨ c = '_'

/-- Case-insensitive literal match at the head of `s`. -/
def ciHeadMatch (pat s : List Char) : Bool :=
  (pat.map Char.toLower).isPrefixOf (s.map Char.toLower)

/-- One global, case-insensitive, word-boundary-delimited replacement
pass (`prompt.replace(/\bword\b/gi, to)`): scanning left to right over
the original characters, a match requires a non-word character (or the
string edge) on both sides; matching resumes after the matched text. -/
def replaceWordGo (fuel : Nat) (pat rep : List Char) (prevIsWord : Bool)
    (s : List Char) : List Char :=
  match fuel with
  | 0 => s
  | fuel + 1 =>
    match s with
    | [] => []
    | c :: cs =>
      let rest := (c :: cs).drop pat.length
      let boundaryAfter : Bool := match rest with
        | [] => true
        | d :: _ => !isWordChar d
      if !prevIsWord && ciHeadMatch pat (c :: cs) && boundaryAfter then
        rep ++ replaceWordGo fuel pat rep true rest
      else
        c :: replaceWordGo fuel pat rep (isWordChar c) cs

/-- `String.prototype.replace` with a `/\bpat\b/gi` regex (all the
patterns of the source end in a word character, so after a match the
scanner's previous character is a word character). -/
def replaceWordCI (s pat rep : String) : String :=
  ⟨replaceWordGo s.data.length pat.data rep.data false s.data⟩

/-- The replacement table of `preprocessPrompt` (lines 213-221). -/
def promptReplacements : List (String × String) :=
  [("kill", "defeat"), ("die", "rest"), ("dead", "sleeping"),
   ("weapon", "tool"), ("gun", "device"), ("violent", "energetic"),
   ("fight", "compete")]

/-- `preprocessPrompt` (lines 201-228): inject an illustration framing
when no art-related word is present, then apply the word replacements. -/
def preprocessPrompt (prompt : String) : String :=
  let processed :=
    if ¬ (jsIncludes (jsToLower prompt) "art" ∨
          jsIncludes (jsToLower prompt) "illustration" ∨
          jsIncludes (jsToLower prompt) "drawing" ∨
          jsIncludes (jsToLower prompt) "painting") then
      "Digital illustration of " ++ prompt
    else prompt
  promptReplacements.foldl (fun p r => replaceWordCI p r.1 r.2) processed

/-- `generateAlternativePrompts` (lines 231-241). -/
def generateAlternativePrompts (originalPrompt : String) : List String :=
  ["Artistic rendering of " ++ originalPrompt,
   "Whimsical illustration showing " ++ originalPrompt,
   "Creative digital art depicting " ++ originalPrompt,
   "Cartoon-style image of " ++ originalPrompt,
   "Fantasy illustration of " ++ originalPrompt]

/-- The banned-word list of the content filter (line 115). -/
def bannedWords : List String :=
  ["explicit", "pornographic", "nsfw", "sexual", "nude", "naked"]

/-- Whether `body.chatId` fails the format check of line 124:
supplied and truthy but not a string, or longer than 100 characters. -/
def chatIdFormatInvalid (b : Json) : Bool :=
  match jprop b "chatId" with
  | some cv =>
    jsTruthy cv && (match cv with
      | .str s => decide (s.length > 100)
      | _ => true)
  | none => false

/-- Outcome of one upstream image-generation `fetch`. -/
inductive ImgCallRes where
  | ok (body : Json)
  | httpErr (status : Nat) (errorText : String)

/-- Oracle for one chat-image request. -/
structure ChatImageEnv where
  method : String
  rlMap : String → Option RLEntry
  clientId : String
  now : Nat
  body : Option Json
  uuid : String
  uuid2 : String
  storeSessionId : String
  sessionExists : Bool
  sessionInsertFails : Bool
  apiKey : Option String
  upstream : String → ImgCallRes

/-- The JSON responses the chat-image handler can return. -/
inductive ImgResp where
  | validationErr (status : Nat) (error : String)
  | rateLimited (status : Nat) (error : String) (retryAfter : String)
  | genError (status : Nat) (error : String) (originalPrompt : String)
      (attemptsUsed : Nat)
  | invalidStructure (status : Nat) (error : String)
  | genSuccess (imageUrl : String) (prompt : String) (processedPrompt : String)
      (chatId : String) (revisedPrompt : String) (attemptsUsed : Nat)
  | mock (imageUrl : String) (prompt : String) (processedPrompt : String)
      (chatId : String) (revisedPrompt : String)
deriving DecidableEq

/-- Body parsing and validation (lines 84-133), in source order: JSON
parse, object check, message check, trim, length bounds, preprocessing,
banned-word filter, chatId format check.  Returns
`(originalPrompt, processedPrompt, chatId)`. -/
def parseChatImageBody (env : ChatImageEnv) :
    Except String (String × String × String) :=
  match env.body with
  | none => .error "Invalid JSON in request body"
  | some b =>
    let isObjType := match b with
      | .obj _ => true
      | .arr _ => true
      | _ => false
    if !jsTruthy b || !isObjType then
      .error "Request body must be a valid JSON object"
    else
      match jprop b "message" with
      | some (.str msg) =>
        if msg = "" then .error "Message field is required and must be a string"
        else
          let originalPrompt := jsTrim msg
          let cv := (jprop b "chatId").getD Json.null
          let chatId := if jsTruthy cv then jsToString cv else env.uuid
          if originalPrompt.length > 1000 then
            .error "Prompt too long (max 1000 characters)"
          else if originalPrompt.length < 3 then
            .error "Prompt too short (min 3 characters)"
          else
            let processedPrompt := preprocessPrompt originalPrompt
            let lowerPrompt := jsToLower processedPrompt
            if bannedWords.any (fun w => jsIncludes lowerPrompt w) then
              .error "Prompt contains inappropriate content"
            else if chatIdFormatInvalid b then
              .error "chatId must be a valid string (max 100 characters)"
            else .ok (originalPrompt, processedPrompt, chatId)
      | _ => .error "Message field is required and must be a string"

/-- Session resolution of the chat-image handler (lines 139-184),
structurally identical to the chat-text one; titles derive from the
trimmed prompt. -/
def sessionPhaseImg (env : ChatImageEnv) (originalPrompt chatId : String) :
    List Eff × String :=
  if chatId = "" then
    ([.sessionInsertNew (jsTake originalPrompt 50)],
     if env.sessionInsertFails then env.uuid2 else env.storeSessionId)
  else if env.sessionExists then
    ([.sessionSelect chatId, .sessionUpdate chatId], chatId)
  else
    ([.sessionSelect chatId,
      .sessionInsertWithId chatId (jsTake originalPrompt 50)], chatId)

/-- The user-facing apology for an unretryable content-policy rejection
(line 313). -/
def policyApology (originalPrompt : String) : String :=
  "I apologize, but OpenAI's safety system rejected the prompt \"" ++
    originalPrompt ++
    "\". This sometimes happens with innocent requests. Please try rephrasing your request or using different words to describe what you want to see."

/-- `attemptImageGeneration` (lines 270-391): one upstream call per
attempt; a content-policy rejection retries with the next alternative
phrasing while `attempt < 3` (and an alternative exists), any other
error is surfaced with `attemptsUsed`; a success validates the response
structure and persists the assistant image message. -/
def attemptImageGeneration (upstream : String → ImgCallRes)
    (originalPrompt chatId : String) (promptToTry : String) (attempt : Nat) :
    List Eff × ImgResp :=
  let fetchEff := Eff.upstreamFetch "dall-e-3" promptToTry
  match upstream promptToTry with
  | .httpErr status errorText =>
    let errStatus := if status ≥ 500 then 502 else 400
    match parseJson errorText with
    | none =>
      ([fetchEff],
       .genError errStatus "Image generation service temporarily unavailable"
         originalPrompt attempt)
    | some errorData =>
      let codeOpt := (jprop errorData "error").bind (fun e => jprop e "code")
      let isCode := fun (s : String) =>
        match codeOpt with
        | some (.str c) => c == s
        | _ => false
      if isCode "content_policy_violation" then
        if h : attempt < 3 ∧
            attempt ≤ (generateAlternativePrompts originalPrompt).length then
          let next := (generateAlternativePrompts originalPrompt).getD
            (attempt - 1) ""
          let r := attemptImageGeneration upstream originalPrompt chatId next
            (attempt + 1)
          (fetchEff :: r.1, r.2)
        else
          ([fetchEff],
           .genError errStatus (policyApology originalPrompt)
             originalPrompt attempt)
      else if isCode "rate_limit_exceeded" then
        ([fetchEff],
         .genError errStatus "OpenAI rate limit exceeded. Please try again later."
           originalPrompt attempt)
      else
        match (jprop errorData "error").bind (fun e => jprop e "message") with
        | some mv =>
          if jsTruthy mv then
            ([fetchEff], .genError errStatus (jsToString mv) originalPrompt attempt)
          else
            ([fetchEff],
             .genError errStatus "Image generation failed" originalPrompt attempt)
        | none =>
          ([fetchEff],
           .genError errStatus "Image generation failed" originalPrompt attempt)
  | .ok openaiData =>
    let dataOk := match jprop openaiData "data" with
      | some (.arr xs) => !xs.isEmpty
      | _ => false
    if !dataOk then
      ([fetchEff],
       .invalidStructure 502 "Invalid response from image generation service")
    else
      let d0 := ((jprop openaiData "data").bind (fun d => jindex d 0)).getD .null
      let url := ((jprop d0 "url").getD .null)
      let revised := match jprop d0 "revised_prompt" with
        | some rv => if jsTruthy rv then jsToString rv else promptToTry
        | none => promptToTry
      ([fetchEff,
        Eff.msgInsert chatId "assistant" revised "image" (some (jsToString url))],
       .genSuccess (jsToString url) originalPrompt promptToTry chatId revised
         attempt)
termination_by 3 - attempt
decreasing_by
  omega

/-- The status mapping of the outer `catch` (lines 411-414). -/
def chatImageStatus (m : String) : Nat :=
  if jsIncludes m "not allowed" then 405
  else if jsIncludes m "too long" then 400
  else if jsIncludes m "inappropriate" then 400
  else 500

/-- The chat-image handler: method check, rate limiting, validation,
session resolution, user insert, then generation (or the mock response
when no API key is configured).  Returns the effect trace, the response
and the post-request rate-limit map. -/
def chatImageHandler (env : ChatImageEnv) :
    List Eff × ImgResp × (String → Option RLEntry) :=
  if env.method ≠ "POST" then
    ([], .validationErr (chatImageStatus ("Method " ++ env.method ++ " not allowed"))
       ("Method " ++ env.method ++ " not allowed"), env.rlMap)
  else
    let rl := checkRateLimit env.rlMap env.clientId env.now
    if ¬ rl.1 then
      ([], .rateLimited 429 "Rate limit exceeded. Please try again later." "60",
       rl.2)
    else
      match parseChatImageBody env with
      | .error m => ([], .validationErr (chatImageStatus m) m, rl.2)
      | .ok (originalPrompt, processedPrompt, chatId) =>
        let sp := sessionPhaseImg env originalPrompt chatId
        let userEff := Eff.msgInsert sp.2 "user" originalPrompt "image" none
        match env.apiKey with
        | none =>
          (sp.1 ++ [userEff],
           .mock "https://via.placeholder.com/1024x1024/4F46E5/FFFFFF?text=Mock+Image+Generation"
             originalPrompt processedPrompt sp.2
             ("Mock generation for: " ++ processedPrompt), rl.2)
        | some _ =>
          let g := attemptImageGeneration env.upstream originalPrompt sp.2
            processedPrompt 1
          (sp.1 ++ [userEff] ++ g.1, g.2, rl.2)

/-! ## Theorems: chat-image retry bound (C7), validation statuses (C8),
rate limiter (C10) -/

theorem attemptImage_policy_step (upstream : String → ImgCallRes)
    (st : Nat) (body : String) (errJson : Json)
    (hu : ∀ p, upstream p = .httpErr st body)
    (hparse : parseJson body = some errJson)
    (hcode : (jprop errJson "error").bind (fun e => jprop e "code") =
      some (.str "content_policy_violation"))
    (originalPrompt chatId p : String) (n : Nat) (hn : n < 3) :
    attemptImageGeneration upstream originalPrompt chatId p n =
      (Eff.upstreamFetch "dall-e-3" p ::
        (attemptImageGeneration upstream originalPrompt chatId
          ((generateAlternativePrompts originalPrompt).getD (n - 1) "") (n + 1)).1,
       (attemptImageGeneration upstream originalPrompt chatId
          ((generateAlternativePrompts originalPrompt).getD (n - 1) "") (n + 1)).2) := by
  have hcond : n < 3 ∧ n ≤ (generateAlternativePrompts originalPrompt).length := by
    refine ⟨hn, ?_⟩
    show n ≤ 5
    omega
  rw [attemptImageGeneration]
  rw [hu p]
  simp only [hparse, hcode, beq_self_eq_true, if_true, dif_pos hcond]

theorem attemptImage_policy_stop (upstream : String → ImgCallRes)
    (st : Nat) (body : String) (errJson : Json)
    (hu : ∀ p, upstream p = .httpErr st body)
    (hst : st < 500)
    (hparse : parseJson body = some errJson)
    (hcode : (jprop errJson "error").bind (fun e => jprop e "code") =
      some (.str "content_policy_violation"))
    (originalPrompt chatId p : String) :
    attemptImageGeneration upstream originalPrompt chatId p 3 =
      ([Eff.upstreamFetch "dall-e-3" p],
       .genError 400 (policyApology originalPrompt) originalPrompt 3) := by
  have hcond : ¬ (3 < 3 ∧ 3 ≤ (generateAlternativePrompts originalPrompt).length) := by
    intro h
    exact absurd h.1 (by omega)
  have hstatus : ¬ st ≥ 500 := by omega
  rw [attemptImageGeneration]
  rw [hu p]
  simp only [hparse, hcode, beq_self_eq_true, if_true, dif_neg hcond, if_neg hstatus]

/-- C7: against an upstream that always answers with a content-policy
rejection, the generation engine makes exactly 3 attempts — the
preprocessed original prompt and then the first two alternative
phrasings, in list order — then surfaces a structured error carrying the
original prompt and `attemptsUsed = 3`, and persists no message. -/
theorem imageRetry_bound (upstream : String → ImgCallRes)
    (st : Nat) (body : String) (errJson : Json)
    (hu : ∀ p, upstream p = .httpErr st body)
    (hst : st < 500)
    (hparse : parseJson body = some errJson)
    (hcode : (jprop errJson "error").bind (fun e => jprop e "code") =
      some (.str "content_policy_violation"))
    (originalPrompt chatId : String) :
    attemptImageGeneration upstream originalPrompt chatId
        (preprocessPrompt originalPrompt) 1 =
      ([Eff.upstreamFetch "dall-e-3" (preprocessPrompt originalPrompt),
        Eff.upstreamFetch "dall-e-3" ("Artistic rendering of " ++ originalPrompt),
        Eff.upstreamFetch "dall-e-3" ("Whimsical illustration showing " ++ originalPrompt)],
       .genError 400 (policyApology originalPrompt) originalPrompt 3) ∧
    (attemptImageGeneration upstream originalPrompt chatId
        (preprocessPrompt originalPrompt) 1).1.filter isMsgInsert = [] := by
  have ha0 : (generateAlternativePrompts originalPrompt)[0]?.getD "" =
      "Artistic rendering of " ++ originalPrompt := rfl
  have ha1 : (generateAlternativePrompts originalPrompt)[1]?.getD "" =
      "Whimsical illustration showing " ++ originalPrompt := rfl
  have h1 := attemptImage_policy_step upstream st body errJson hu hparse hcode
    originalPrompt chatId (preprocessPrompt originalPrompt) 1 (by omega)
  have h2 := attemptImage_policy_step upstream st body errJson hu hparse hcode
    originalPrompt chatId ("Artistic rendering of " ++ originalPrompt) 2 (by omega)
  have h3 := attemptImage_policy_stop upstream st body errJson hu hst hparse hcode
    originalPrompt chatId ("Whimsical illustration showing " ++ originalPrompt)
  norm_num [ha0] at h1
  norm_num [ha1] at h2
  have hmain : attemptImageGeneration upstream originalPrompt chatId
      (preprocessPrompt originalPrompt) 1 =
      ([Eff.upstreamFetch "dall-e-3" (preprocessPrompt originalPrompt),
        Eff.upstreamFetch "dall-e-3" ("Artistic rendering of " ++ originalPrompt),
        Eff.upstreamFetch "dall-e-3" ("Whimsical illustration showing " ++ originalPrompt)],
       .genError 400 (policyApology originalPrompt) originalPrompt 3) := by
    rw [h1, h2, h3]
  refine ⟨hmain, ?_⟩
  rw [hmain]
  rfl

/-- A concrete always-rejecting upstream body. -/
def policyRejectBody : String :=
  "\x7b\"error\":\x7b\"code\":\"content_policy_violation\"\x7d\x7d"

/-- C7 witness: the concrete always-rejecting upstream, prompt
`"ping pong"`. -/
theorem imageRetry_bound_witness :
    attemptImageGeneration (fun _ => .httpErr 400 policyRejectBody)
        "ping pong" "c1" (preprocessPrompt "ping pong") 1 =
      ([Eff.upstreamFetch "dall-e-3" (preprocessPrompt "ping pong"),
        Eff.upstreamFetch "dall-e-3" ("Artistic rendering of " ++ "ping pong"),
        Eff.upstreamFetch "dall-e-3" ("Whimsical illustration showing " ++ "ping pong")],
       .genError 400 (policyApology "ping pong") "ping pong" 3) ∧
    (attemptImageGeneration (fun _ => .httpErr 400 policyRejectBody)
        "ping pong" "c1" (preprocessPrompt "ping pong") 1).1.filter isMsgInsert = [] :=
  imageRetry_bound (fun _ => .httpErr 400 policyRejectBody) 400 policyRejectBody
    (.obj [("error", .obj [("code", .str "content_policy_violation")])])
    (fun _ => rfl) (by omega) (by rfl) (by rfl) "ping pong" "c1"

/-- C8 (amended): a request that fails validation is answered
immediately — empty effect trace, so no store access, no upstream call
and no retry — with the structured error body; but the status mapping of
the outer catch sends only method errors (405), over-length prompts
(400) and banned content (400) to 4xx classes, while under-length
prompts and malformed JSON bodies fall through to 500. -/
theorem chatImage_validation_immediate (env : ChatImageEnv) (m : String)
    (hpost : env.method = "POST")
    (hrl : (checkRateLimit env.rlMap env.clientId env.now).1 = true)
    (hval : parseChatImageBody env = .error m) :
    chatImageHandler env =
      ([], .validationErr (chatImageStatus m) m,
       (checkRateLimit env.rlMap env.clientId env.now).2) ∧
    (∀ env2 : ChatImageEnv, env2.method = "GET" →
      chatImageHandler env2 =
        ([], .validationErr 405 "Method GET not allowed", env2.rlMap)) ∧
    chatImageStatus "Prompt too long (max 1000 characters)" = 400 ∧
    chatImageStatus "Prompt contains inappropriate content" = 400 ∧
    chatImageStatus "Method GET not allowed" = 405 ∧
    chatImageStatus "Invalid JSON in request body" = 500 ∧
    chatImageStatus "Prompt too short (min 3 characters)" = 500 := by
  refine ⟨?_, ?_, by decide, by decide, by decide, by decide, by decide⟩
  · have hmp : ¬ env.method ≠ "POST" := by simp [hpost]
    unfold chatImageHandler
    rw [if_neg hmp]
    simp only [hrl, hval, not_true, if_neg, Bool.not_true]
    simp
  · intro env2 h2
    unfold chatImageHandler
    rw [h2]
    rfl

/-- A concrete request whose trimmed prompt has fewer than 3 characters. -/
def envShortPrompt : ChatImageEnv :=
  { method := "POST"
    rlMap := fun _ => none
    clientId := "1.2.3.4"
    now := 0
    body := some (.obj [("message", .str "ab")])
    uuid := "u1"
    uuid2 := "u2"
    storeSessionId := "s1"
    sessionExists := false
    sessionInsertFails := false
    apiKey := none
    upstream := fun _ => .httpErr 400 "" }

/-- C8 counterexample: the under-length prompt `"ab"` is rejected with
status 500 — not a 4xx-class status as the claim states — although no
upstream call or store access happens. -/
theorem chatImage_tooShort_500_cex :
    (chatImageHandler envShortPrompt).2.1 =
      .validationErr 500 "Prompt too short (min 3 characters)" ∧
    (chatImageHandler envShortPrompt).1 = [] ∧
    ¬ (400 ≤ 500 ∧ 500 < 500) := by
  refine ⟨by decide, by decide, by omega⟩

/-- C8 witness: the amended theorem applied at the concrete under-length
request. -/
theorem chatImage_validation_immediate_witness :
    chatImageHandler envShortPrompt =
      ([], .validationErr (chatImageStatus "Prompt too short (min 3 characters)")
        "Prompt too short (min 3 characters)",
       (checkRateLimit envShortPrompt.rlMap envShortPrompt.clientId
         envShortPrompt.now).2) ∧
    chatImageStatus "Prompt too short (min 3 characters)" = 500 :=
  ⟨(chatImage_validation_immediate envShortPrompt
      "Prompt too short (min 3 characters)" rfl rfl rfl).1,
   (chatImage_validation_immediate envShortPrompt
      "Prompt too short (min 3 characters)" rfl rfl rfl).2.2.2.2.2.2⟩

/-- Helper for the rate limiter: a full counter inside the window is
rejected without state change. -/
theorem checkRateLimit_full_reject (m : String → Option RLEntry)
    (cid : String) (now rt : Nat)
    (hm : m cid = some ⟨RATE_LIMIT_MAX_REQUESTS, rt⟩) (hw : now ≤ rt) :
    checkRateLimit m cid now = (false, m) := by
  unfold checkRateLimit
  rw [hm]
  simp [show ¬ now > rt from by omega]

/-- C10: the fixed-window limiter of the chat-image function.  (a) a
step never pushes a stored count above 10; (b) a request finding a full
counter inside the window is rejected with no state change, and the
handler then answers 429 with a Retry-After header and an empty effect
trace — no store access, no upstream call; (c) the first request after
window expiry resets the count to 1. -/
theorem rateLimit_fixed_window :
    (∀ (m : String → Option RLEntry) (cid : String) (now : Nat),
      (∀ c e, m c = some e → e.count ≤ RATE_LIMIT_MAX_REQUESTS) →
      ∀ c e, (checkRateLimit m cid now).2 c = some e →
        e.count ≤ RATE_LIMIT_MAX_REQUESTS) ∧
    (∀ (m : String → Option RLEntry) (cid : String) (now rt : Nat),
      m cid = some ⟨RATE_LIMIT_MAX_REQUESTS, rt⟩ → now ≤ rt →
      checkRateLimit m cid now = (false, m)) ∧
    (∀ (env : ChatImageEnv) (rt : Nat),
      env.method = "POST" →
      env.rlMap env.clientId = some ⟨RATE_LIMIT_MAX_REQUESTS, rt⟩ →
      env.now ≤ rt →
      chatImageHandler env =
        ([], .rateLimited 429 "Rate limit exceeded. Please try again later." "60",
         env.rlMap)) ∧
    (∀ (m : String → Option RLEntry) (cid : String) (now : Nat) (e : RLEntry),
      m cid = some e → now > e.resetTime →
      (checkRateLimit m cid now).1 = true ∧
      (checkRateLimit m cid now).2 cid = some ⟨1, now + RATE_LIMIT_WINDOW⟩) := by
  refine ⟨?_, checkRateLimit_full_reject, ?_, ?_⟩
  · intro m cid now hinv c e hc
    unfold checkRateLimit at hc
    cases hcd : m cid with
    | none =>
      rw [hcd] at hc
      simp at hc
      by_cases hceq : c = cid
      · rw [if_pos hceq] at hc
        cases hc
        show 1 ≤ RATE_LIMIT_MAX_REQUESTS
        decide
      · rw [if_neg hceq] at hc
        exact hinv c e hc
    | some clientData =>
      rw [hcd] at hc
      have hc2 : (if now > clientData.resetTime then
          (true, fun c => if c = cid then
            some (⟨1, now + RATE_LIMIT_WINDOW⟩ : RLEntry) else m c)
        else if clientData.count ≥ RATE_LIMIT_MAX_REQUESTS then (false, m)
        else (true, fun c => if c = cid then
          some (⟨clientData.count + 1, clientData.resetTime⟩ : RLEntry)
          else m c)).2 c = some e := hc
      clear hc
      rename' hc2 => hc
      by_cases hexp : now > clientData.resetTime
      · rw [if_pos hexp] at hc
        simp at hc
        by_cases hceq : c = cid
        · rw [if_pos hceq] at hc
          cases hc
          show 1 ≤ RATE_LIMIT_MAX_REQUESTS
          decide
        · rw [if_neg hceq] at hc
          exact hinv c e hc
      · rw [if_neg hexp] at hc
        by_cases hfull : clientData.count ≥ RATE_LIMIT_MAX_REQUESTS
        · rw [if_pos hfull] at hc
          exact hinv c e hc
        · rw [if_neg hfull] at hc
          simp at hc
          by_cases hceq : c = cid
          · rw [if_pos hceq] at hc
            cases hc
            show clientData.count + 1 ≤ RATE_LIMIT_MAX_REQUESTS
            unfold RATE_LIMIT_MAX_REQUESTS at hfull ⊢
            omega
          · rw [if_neg hceq] at hc
            exact hinv c e hc
  · intro env rt hpost hfull hw
    have hmp : ¬ env.method ≠ "POST" := by simp [hpost]
    unfold chatImageHandler
    rw [if_neg hmp]
    rw [checkRateLimit_full_reject env.rlMap env.clientId env.now rt hfull hw]
    rfl
  · intro m cid now e hm hexp
    unfold checkRateLimit
    rw [hm]
    simp [hexp]

/-- C10 witness: a concrete client at a full counter inside the window
is rejected by the handler with 429 and no effects; after the window has
passed, the counter resets to 1. -/
def rlFull : String → Option RLEntry :=
  fun c => if c = "1.2.3.4" then some ⟨10, 1000⟩ else none

def envRateLimited : ChatImageEnv :=
  { method := "POST"
    rlMap := rlFull
    clientId := "1.2.3.4"
    now := 500
    body := some (.obj [("message", .str "a cat")])
    uuid := "u1"
    uuid2 := "u2"
    storeSessionId := "s1"
    sessionExists := false
    sessionInsertFails := false
    apiKey := none
    upstream := fun _ => .httpErr 400 "" }

theorem rateLimit_fixed_window_witness :
    checkRateLimit rlFull "1.2.3.4" 500 = (false, rlFull) ∧
    chatImageHandler envRateLimited =
      ([], .rateLimited 429 "Rate limit exceeded. Please try again later." "60",
       rlFull) ∧
    (checkRateLimit rlFull "1.2.3.4" 2000).1 = true ∧
    (checkRateLimit rlFull "1.2.3.4" 2000).2 "1.2.3.4" =
      some ⟨1, 2000 + RATE_LIMIT_WINDOW⟩ :=
  ⟨rateLimit_fixed_window.2.1 rlFull "1.2.3.4" 500 1000 rfl (by omega),
   rateLimit_fixed_window.2.2.1 envRateLimited 1000 rfl rfl (by decide),
   (rateLimit_fixed_window.2.2.2 rlFull "1.2.3.4" 2000 ⟨10, 1000⟩ rfl (by decide)).1,
   (rateLimit_fixed_window.2.2.2 rlFull "1.2.3.4" 2000 ⟨10, 1000⟩ rfl (by decide)).2⟩

/-! ## Get-chat-history handler (C9)

Model of the handler appended after the SQL migration in
`supabase/migrations/20250923052944_create_chat_tables.sql`: with a
`chatId` it selects that session's messages ordered ascending by
`created_at`; without one it selects the chat sessions ordered
descending by `updated_at`, limited to 50.  The store is modelled as row
lists; `order`/`limit` are given PostgREST semantics (a sort and a
`take`). -/

structure SessionRow where
  id : String
  created_at : Nat
  updated_at : Nat
  title : Option String
deriving DecidableEq

structure MessageRow where
  id : String
  created_at : Nat
  chat_id : String
  role : String
  content : String
  mtype : String
  image_url : Option String
deriving DecidableEq

structure ChatStore where
  sessions : List SessionRow
  messages : List MessageRow

/-- `.from("chat_sessions").select("*").order("updated_at", { ascending:
false }).limit(50)`. -/
def sessionsByUpdatedDesc (db : ChatStore) : List SessionRow :=
  (db.sessions.mergeSort (fun a b => decide (b.updated_at ≤ a.updated_at))).take 50

/-- `.from("messages").select("*").eq("chat_id", chatId)
.order("created_at", { ascending: true })`. -/
def messagesByCreatedAsc (db : ChatStore) (chatId : String) : List MessageRow :=
  (db.messages.filter (fun r => r.chat_id == chatId)).mergeSort
    (fun a b => decide (a.created_at ≤ b.created_at))

inductive HistResp where
  | messages (chatId : String) (msgs : List MessageRow)
  | sessions (ss : List SessionRow)
  | methodErr (status : Nat) (error : String)
deriving DecidableEq

/-- The get-chat-history handler; `chatId = none` models an absent (or
falsy) identifier from both query string and body. -/
def getChatHistoryHandler (db : ChatStore) (method : String)
    (chatId : Option String) : HistResp :=
  if method ≠ "GET" ∧ method ≠ "POST" then
    .methodErr 400 ("Method " ++ method ++ " not allowed")
  else
    match chatId with
    | some c => .messages c (messagesByCreatedAsc db c)
    | none => .sessions (sessionsByUpdatedDesc db)

/-- C9: without a `chatId` the response carries the sessions sorted
descending by `updated_at`, at most 50 of them, drawn from the stored
sessions (all of them when at most 50 exist); with a `chatId` it carries
exactly the messages of that session, sorted ascending by `created_at`. -/
theorem getChatHistory_contract (db : ChatStore) (c : String) :
    getChatHistoryHandler db "GET" none = .sessions (sessionsByUpdatedDesc db) ∧
    (sessionsByUpdatedDesc db).length ≤ 50 ∧
    (sessionsByUpdatedDesc db).Pairwise
      (fun a b => b.updated_at ≤ a.updated_at) ∧
    List.Subperm (sessionsByUpdatedDesc db) db.sessions ∧
    (db.sessions.length ≤ 50 →
      List.Perm (sessionsByUpdatedDesc db) db.sessions) ∧
    getChatHistoryHandler db "GET" (some c) =
      .messages c (messagesByCreatedAsc db c) ∧
    List.Perm (messagesByCreatedAsc db c)
      (db.messages.filter (fun r => r.chat_id == c)) ∧
    (messagesByCreatedAsc db c).Pairwise
      (fun a b => a.created_at ≤ b.created_at) ∧
    (∀ r ∈ messagesByCreatedAsc db c, r.chat_id = c) := by
  have hsorted : (db.sessions.mergeSort
      (fun a b => decide (b.updated_at ≤ a.updated_at))).Pairwise
      (fun a b => decide (b.updated_at ≤ a.updated_at) = true) :=
    List.sorted_mergeSort
      (by
        intro a b c h1 h2
        simp only [decide_eq_true_eq] at *
        omega)
      (by
        intro a b
        simp [Nat.le_total])
      db.sessions
  have hmsorted : ((db.messages.filter (fun r => r.chat_id == c)).mergeSort
      (fun a b => decide (a.created_at ≤ b.created_at))).Pairwise
      (fun a b => decide (a.created_at ≤ b.created_at) = true) :=
    List.sorted_mergeSort
      (by
        intro a b c h1 h2
        simp only [decide_eq_true_eq] at *
        omega)
      (by
        intro a b
        simp [Nat.le_total])
      (db.messages.filter (fun r => r.chat_id == c))
  have hmperm : List.Perm (messagesByCreatedAsc db c)
      (db.messages.filter (fun r => r.chat_id == c)) :=
    List.mergeSort_perm _ _
  refine ⟨rfl, List.length_take_le 50 _, ?_, ?_, ?_, rfl, hmperm, ?_, ?_⟩
  · exact ((hsorted.sublist (List.take_sublist 50 _)).imp
      (fun h => by simpa using h))
  · exact (List.take_sublist 50 _).subperm.trans
      (List.mergeSort_perm db.sessions _).subperm
  · intro hle
    unfold sessionsByUpdatedDesc
    rw [List.take_of_length_le (by
      rw [List.length_mergeSort]
      exact hle)]
    exact List.mergeSort_perm db.sessions _
  · exact hmsorted.imp (fun h => by simpa using h)
  · intro r hr
    have : r ∈ db.messages.filter (fun x => x.chat_id == c) := hmperm.mem_iff.mp hr
    have := List.of_mem_filter this
    simpa using this

/-- A concrete store with three sessions and three messages in two
sessions. -/
def dbEx : ChatStore :=
  { sessions :=
      [⟨"s1", 1, 10, some "a"⟩, ⟨"s2", 2, 30, some "b"⟩, ⟨"s3", 3, 20, none⟩]
    messages :=
      [⟨"m1", 5, "s1", "user", "hi", "text", none⟩,
       ⟨"m2", 3, "s1", "assistant", "yo", "text", none⟩,
       ⟨"m3", 4, "s2", "user", "x", "text", none⟩] }

/-- C9 witness: the contract applied at the concrete store, with the
at-most-50 implication discharged. -/
theorem getChatHistory_contract_witness :
    List.Perm (sessionsByUpdatedDesc dbEx) dbEx.sessions ∧
    (sessionsByUpdatedDesc dbEx).length ≤ 50 ∧
    List.Perm (messagesByCreatedAsc dbEx "s1")
      (dbEx.messages.filter (fun r => r.chat_id == "s1")) ∧
    (∀ r ∈ messagesByCreatedAsc dbEx "s1", r.chat_id = "s1") :=
  ⟨(getChatHistory_contract dbEx "s1").2.2.2.2.1 (by decide),
   (getChatHistory_contract dbEx "s1").2.1,
   (getChatHistory_contract dbEx "s1").2.2.2.2.2.2.1,
   (getChatHistory_contract dbEx "s1").2.2.2.2.2.2.2.2⟩
